import Mathlib

/-!
Verification of the Azure AD disable-user action (src/src/script.mjs).

The action is a stateless wrapper around one HTTP PATCH request.  We embed
its three lifecycle handlers (invoke, error, halt) as pure Lean functions.
External collaborators from the utility library (JSONPath template
resolution, base-URL resolution, auth-header construction, the HTTP client)
are modelled as inputs: the resolved parameters and list of template-resolution
errors, the resolved base URL, the header map, and the HTTP response are all
arguments of invoke, and the observable actions the handler takes (resolving
the base URL, building auth headers, issuing the request, reading or parsing
the response body, logging template warnings) are recorded in an effect trace
returned alongside the outcome, in the order the code performs them.

JavaScript truthiness on strings (absent, null or "" are falsy) is modelled
on Option String; encodeURIComponent is modelled down to UTF-8
percent-encoding with the ECMAScript unreserved character set.
-/

namespace AADDisableUser

/-- Characters left unescaped by JavaScript encodeURIComponent:
ASCII alphanumerics and - _ . ! ~ * quote ( ). -/
def isUnreservedURIChar (c : Char) : Bool :=
  c.isAlphanum || c == '-' || c == '_' || c == '.' || c == '!' ||
  c == '~' || c == '*' || c.val == 39 || c == '(' || c == ')'

/-- UTF-8 byte sequence of a Unicode code point. -/
def utf8EncodeNat (n : Nat) : List Nat :=
  if n < 128 then [n]
  else if n < 2048 then [192 + n / 64, 128 + n % 64]
  else if n < 65536 then [224 + n / 4096, 128 + n / 64 % 64, 128 + n % 64]
  else [240 + n / 262144, 128 + n / 4096 % 64, 128 + n / 64 % 64, 128 + n % 64]

/-- Uppercase hexadecimal digit character. -/
def hexUpper (n : Nat) : Char :=
  if n < 10 then Char.ofNat (48 + n) else Char.ofNat (55 + n)

/-- Percent-escape of one byte: a percent sign and two uppercase hex digits. -/
def percentByte (b : Nat) : List Char :=
  ['%', hexUpper (b / 16), hexUpper (b % 16)]

/-- encodeURIComponent acting on one code point. -/
def encodeURIComponentChar (c : Char) : List Char :=
  if isUnreservedURIChar c then [c] else (utf8EncodeNat c.toNat).flatMap percentByte

/-- Model of JavaScript encodeURIComponent. -/
def encodeURIComponent (s : String) : String :=
  ⟨s.data.flatMap encodeURIComponentChar⟩

/-- JavaScript falsiness of a possibly-absent string value:
`!x` is true exactly when the value is absent (undefined/null) or "". -/
def jsFalsy (x : Option String) : Bool :=
  match x with
  | none => true
  | some s => s == ""

/-- `x || d` on a possibly-absent string value, as in `params.userPrincipalName || "unknown"`. -/
def jsOrElse (x : Option String) (d : String) : String :=
  match x with
  | none => d
  | some s => if s == "" then d else s

/-- Invocation parameters (after template resolution): `userPrincipalName`
and the optional `address` override. -/
structure Params where
  userPrincipalName : Option String
  address : Option String
deriving Repr, DecidableEq

/-- HTTP header map. -/
def Headers := List (String × String)
deriving instance Repr, DecidableEq for Headers

/-- The outgoing HTTP request built by the action. -/
structure HttpRequest where
  method : String
  url : String
  headers : Headers
  body : String
deriving Repr, DecidableEq

/-- The HTTP response as the action observes it: status, status text, the
body as text, and the body's `accountEnabled` JSON field (none when the
field is absent or null, matching `result.accountEnabled ?? false`). -/
structure HttpResponse where
  status : Nat
  statusText : String
  bodyText : String
  bodyAccountEnabled : Option Bool
deriving Repr, DecidableEq

/-- `response.ok` of the fetch API: status in the range 200..299. -/
def responseOk (r : HttpResponse) : Bool :=
  200 ≤ r.status && r.status ≤ 299

/-- Observable effects of one invocation, in program order. -/
inductive Effect where
  | warnTemplateErrors
  | resolveBaseURL
  | createAuthHeaders
  | httpRequest (req : HttpRequest)
  | readBodyText
  | parseBodyJson
deriving Repr, DecidableEq

/-- Network-touching effects (base-URL resolution, auth-header construction
and the HTTP request itself); log effects are not network I/O. -/
def isNetworkEffect : Effect → Bool
  | Effect.resolveBaseURL => true
  | Effect.createAuthHeaders => true
  | Effect.httpRequest _ => true
  | Effect.readBodyText => true
  | Effect.parseBodyJson => true
  | Effect.warnTemplateErrors => false

/-- The success result of invoke: exactly the three fields of the object
returned by src/src/script.mjs. -/
structure InvokeResult where
  status : String
  userPrincipalName : String
  accountEnabled : Bool
deriving Repr, DecidableEq

/-- Outcome of invoke: a thrown validation error, a thrown API error, or a
returned success object. -/
inductive InvokeOutcome where
  | validationError (msg : String)
  | apiError (msg : String)
  | success (r : InvokeResult)
deriving Repr, DecidableEq

/-- The constant request body `JSON.stringify(\x7baccountEnabled: false\x7d)`. -/
def disableBody : String := "\x7b\"accountEnabled\":false\x7d"

/-- Embedding of the helper `disableUserAccount`: builds the PATCH request
against `baseUrl`/v1.0/users/ followed by the encoded user principal name. -/
def disableUserAccount (userPrincipalName : String) (baseUrl : String)
    (headers : Headers) : HttpRequest :=
  let encodedUpn := encodeURIComponent userPrincipalName
  { method := "PATCH"
    url := baseUrl ++ "/v1.0/users/" ++ encodedUpn
    headers := headers
    body := disableBody }

/-- Embedding of `invoke` from src/src/script.mjs.  `resolvedParams` and
`templateErrors` are the output of the external `resolveJSONPathTemplates`;
`baseUrl` and `headers` are the outputs of the external `getBaseURL` and
`createAuthHeaders`, consumed only after validation passes; `response` is
what the single fetch call would return.  Returns the outcome paired with
the trace of effects in program order. -/
def invoke (resolvedParams : Params) (templateErrors : List String)
    (baseUrl : String) (headers : Headers) (response : HttpResponse) :
    InvokeOutcome × List Effect :=
  let warnEffects := if templateErrors.length > 0 then [Effect.warnTemplateErrors] else []
  if jsFalsy resolvedParams.userPrincipalName then
    (InvokeOutcome.validationError "userPrincipalName is required", warnEffects)
  else
    let upn := resolvedParams.userPrincipalName.getD ""
    let req := disableUserAccount upn baseUrl headers
    let effects := warnEffects ++
      [Effect.resolveBaseURL, Effect.createAuthHeaders, Effect.httpRequest req]
    if !responseOk response then
      (InvokeOutcome.apiError
        ("Failed to disable user: " ++ toString response.status ++ " " ++
          response.statusText ++ ". Details: " ++ response.bodyText),
       effects ++ [Effect.readBodyText])
    else if response.status != 204 then
      (InvokeOutcome.success
         { status := "success"
           userPrincipalName := upn
           accountEnabled := response.bodyAccountEnabled.getD false },
       effects ++ [Effect.parseBodyJson])
    else
      (InvokeOutcome.success
         { status := "success", userPrincipalName := upn, accountEnabled := false },
       effects)

/-- The error value passed to the error handler. -/
structure ErrorInfo where
  message : String
deriving Repr, DecidableEq

/-- Parameters of the error handler: the prior error plus the original
user principal name. -/
structure ErrorParams where
  error : ErrorInfo
  userPrincipalName : Option String
deriving Repr, DecidableEq

/-- Outcome of the error handler: rethrow the error, or return a
retry-request object (which this code never does). -/
inductive ErrorOutcome where
  | rethrow (e : ErrorInfo)
  | retryRequested
deriving Repr, DecidableEq

/-- Embedding of the `error` handler: logs and rethrows the received error. -/
def error (params : ErrorParams) : ErrorOutcome :=
  ErrorOutcome.rethrow params.error

/-- Parameters of the halt handler. -/
structure HaltParams where
  userPrincipalName : Option String
  reason : String
deriving Repr, DecidableEq

/-- The object returned by the halt handler. -/
structure HaltResult where
  status : String
  userPrincipalName : String
  reason : String
deriving Repr, DecidableEq

/-- Embedding of the `halt` handler, paired with its (empty) effect trace:
it performs no I/O and only reports. -/
def halt (params : HaltParams) : HaltResult × List Effect :=
  ({ status := "halted"
     userPrincipalName := jsOrElse params.userPrincipalName "unknown"
     reason := params.reason }, [])


/-- Model of JavaScript String.prototype.trim: strip leading and trailing
whitespace. -/
def jsTrim (s : String) : String :=
  ⟨((s.data.dropWhile Char.isWhitespace).reverse.dropWhile Char.isWhitespace).reverse⟩

/-- `hay` contains `needle` as a substring. -/
def strContains (hay needle : String) : Prop :=
  ∃ pre post, hay = pre ++ (needle ++ post)

/-- A 204 No Content response. -/
def sampleResponse204 : HttpResponse :=
  { status := 204, statusText := "No Content", bodyText := "", bodyAccountEnabled := none }

/-- A 200 response whose JSON body carries accountEnabled = true. -/
def sampleResponse200 : HttpResponse :=
  { status := 200, statusText := "OK",
    bodyText := "\x7b\"accountEnabled\":true\x7d", bodyAccountEnabled := some true }

/-- A 403 Forbidden response. -/
def sampleResponse403 : HttpResponse :=
  { status := 403, statusText := "Forbidden",
    bodyText := "Insufficient privileges", bodyAccountEnabled := none }

/-! ### Properties of the encoding -/

theorem char_toNat_lt (c : Char) : c.toNat < 1114112 := by
  have h : c.val.toNat < 55296 ∨ (57343 < c.val.toNat ∧ c.val.toNat < 1114112) := c.valid
  have : c.toNat = c.val.toNat := rfl
  omega

theorem utf8EncodeNat_lt (n : Nat) (h : n < 1114112) :
    ∀ b ∈ utf8EncodeNat n, b < 256 := by
  intro b hb
  unfold utf8EncodeNat at hb
  split at hb
  · simp only [List.mem_singleton] at hb; omega
  · split at hb
    · simp only [List.mem_cons, List.not_mem_nil, or_false] at hb
      rcases hb with hb | hb <;> omega
    · split at hb
      · simp only [List.mem_cons, List.not_mem_nil, or_false] at hb
        rcases hb with hb | hb | hb <;> omega
      · simp only [List.mem_cons, List.not_mem_nil, or_false] at hb
        rcases hb with hb | hb | hb | hb <;> omega

theorem hexUpper_safe : ∀ n < 16, hexUpper n ≠ '@' ∧ hexUpper n ≠ '/' ∧ hexUpper n ≠ ' ' := by
  decide

theorem percentByte_safe (b : Nat) (hb : b < 256) :
    ∀ c ∈ percentByte b, c ≠ '@' ∧ c ≠ '/' ∧ c ≠ ' ' := by
  intro c hc
  simp only [percentByte, List.mem_cons, List.not_mem_nil, or_false] at hc
  rcases hc with h | h | h
  · subst h; refine ⟨by decide, by decide, by decide⟩
  · subst h; exact hexUpper_safe _ (by omega)
  · subst h; exact hexUpper_safe _ (by omega)

theorem encodeURIComponentChar_safe (c : Char) :
    ∀ d ∈ encodeURIComponentChar c, d ≠ '@' ∧ d ≠ '/' ∧ d ≠ ' ' := by
  intro d hd
  unfold encodeURIComponentChar at hd
  split at hd
  · rename_i hres
    simp only [List.mem_singleton] at hd
    subst hd
    refine ⟨?_, ?_, ?_⟩ <;> intro he <;> subst he <;> exact absurd hres (by decide)
  · rw [List.mem_flatMap] at hd
    obtain ⟨b, hb, hdb⟩ := hd
    exact percentByte_safe b (utf8EncodeNat_lt c.toNat (char_toNat_lt c) b hb) d hdb

theorem encodeURIComponent_no_reserved (s : String) :
    ∀ c ∈ (encodeURIComponent s).data, c ≠ '@' ∧ c ≠ '/' ∧ c ≠ ' ' := by
  intro c hc
  have hd : (encodeURIComponent s).data = s.data.flatMap encodeURIComponentChar := rfl
  rw [hd, List.mem_flatMap] at hc
  obtain ⟨a, _, hca⟩ := hc
  exact encodeURIComponentChar_safe a c hca

/-! ### Helper lemmas about the invoke trace -/

theorem invoke_falsy (p : Params) (errs : List String) (b : String) (hd : Headers)
    (r : HttpResponse) (h : jsFalsy p.userPrincipalName = true) :
    invoke p errs b hd r =
      (InvokeOutcome.validationError "userPrincipalName is required",
       if errs.length > 0 then [Effect.warnTemplateErrors] else []) := by
  simp only [invoke, h, if_true]

theorem invoke_req_mem (s : String) (hs : s ≠ "") (a : Option String)
    (errs : List String) (b : String) (hd : Headers) (r : HttpResponse) :
    Effect.httpRequest (disableUserAccount s b hd) ∈
      (invoke { userPrincipalName := some s, address := a } errs b hd r).2 := by
  have hfal : jsFalsy (some s) = false := by
    simp only [jsFalsy, beq_eq_false_iff_ne, ne_eq]; exact hs
  simp only [invoke, hfal, Bool.false_eq_true, if_false, Option.getD_some]
  split <;> split <;>
    simp [List.mem_append]

theorem invoke_template_errors_shape (p : Params) (errs : List String)
    (b : String) (hd : Headers) (r : HttpResponse) :
    invoke p errs b hd r =
      ((invoke p [] b hd r).1,
       (if errs.length > 0 then [Effect.warnTemplateErrors] else []) ++
         (invoke p [] b hd r).2) := by
  simp only [invoke]
  split
  · simp
  · split
    · simp [List.append_assoc]
    · split <;> simp [List.append_assoc]


/-! ### Claim theorems -/

/-- C1 (amended): whenever the resolved `userPrincipalName` is absent or is
the empty string (JavaScript-falsy; no trimming is applied), invoke fails
with the validation error before any network effect: no base-URL
resolution, auth-header construction or HTTP request appears in the trace. -/
theorem C1_validation_before_network (p : Params) (errs : List String)
    (b : String) (hd : Headers) (r : HttpResponse)
    (h : jsFalsy p.userPrincipalName = true) :
    (invoke p errs b hd r).1 =
      InvokeOutcome.validationError "userPrincipalName is required" ∧
    ∀ e ∈ (invoke p errs b hd r).2, isNetworkEffect e = false := by
  rw [invoke_falsy p errs b hd r h]
  refine ⟨rfl, ?_⟩
  intro e he
  split at he
  · simp only [List.mem_singleton] at he
    subst he; rfl
  · simp at he

theorem C1_validation_before_network_witness :
    (invoke { userPrincipalName := none, address := none } [] "https://graph.microsoft.com"
        [] sampleResponse403).1 =
      InvokeOutcome.validationError "userPrincipalName is required" ∧
    ∀ e ∈ (invoke { userPrincipalName := none, address := none } []
        "https://graph.microsoft.com" [] sampleResponse403).2, isNetworkEffect e = false :=
  C1_validation_before_network { userPrincipalName := none, address := none } []
    "https://graph.microsoft.com" [] sampleResponse403 rfl

/-- C1 (counterexample): a whitespace-only userPrincipalName is empty after
trimming, yet invoke does not fail with a validation error: it proceeds to
issue the HTTP request (the code checks only JavaScript falsiness and never
trims). -/
theorem C1_counterexample :
    jsTrim " " = "" ∧
    (invoke { userPrincipalName := some " ", address := none } []
        "https://graph.microsoft.com" [] sampleResponse204).1 =
      InvokeOutcome.success
        { status := "success", userPrincipalName := " ", accountEnabled := false } ∧
    Effect.httpRequest
        { method := "PATCH", url := "https://graph.microsoft.com/v1.0/users/%20",
          headers := [], body := disableBody } ∈
      (invoke { userPrincipalName := some " ", address := none } []
        "https://graph.microsoft.com" [] sampleResponse204).2 := by
  decide

/-- C2: for every non-empty userPrincipalName, the request issued by invoke
has URL `baseUrl ++ "/v1.0/users/" ++ encodeURIComponent upn`, and the
encoded component contains no unescaped reserved character. -/
theorem C2_encoded_request_url (s : String) (hs : s ≠ "") (a : Option String)
    (errs : List String) (b : String) (hd : Headers) (r : HttpResponse) :
    Effect.httpRequest
        { method := "PATCH", url := b ++ "/v1.0/users/" ++ encodeURIComponent s,
          headers := hd, body := disableBody } ∈
      (invoke { userPrincipalName := some s, address := a } errs b hd r).2 ∧
    (∀ req, Effect.httpRequest req ∈
        (invoke { userPrincipalName := some s, address := a } errs b hd r).2 →
      req.url = b ++ "/v1.0/users/" ++ encodeURIComponent s) ∧
    ∀ c ∈ (encodeURIComponent s).data, c ≠ '@' ∧ c ≠ '/' ∧ c ≠ ' ' := by
  refine ⟨invoke_req_mem s hs a errs b hd r, ?_, encodeURIComponent_no_reserved s⟩
  intro req h
  have hfal : jsFalsy (some s) = false := by
    simp only [jsFalsy, beq_eq_false_iff_ne, ne_eq]; exact hs
  simp only [invoke, hfal, Bool.false_eq_true, if_false, Option.getD_some] at h
  split at h
  · simp [disableUserAccount, List.mem_append] at h
    first
      | rfl
      | (subst h; rfl)
  · split at h <;>
      · simp [disableUserAccount, List.mem_append] at h
        first
          | rfl
          | (subst h; rfl)

theorem C2_encoded_request_url_witness :
    Effect.httpRequest
        { method := "PATCH",
          url := "https://graph.microsoft.com" ++ "/v1.0/users/" ++
            encodeURIComponent "user@contoso.com",
          headers := [], body := disableBody } ∈
      (invoke { userPrincipalName := some "user@contoso.com", address := none } []
        "https://graph.microsoft.com" [] sampleResponse204).2 :=
  (C2_encoded_request_url "user@contoso.com" (by decide) none []
    "https://graph.microsoft.com" [] sampleResponse204).1

/-- C3: every HTTP request appearing in an invoke trace has method PATCH and
the constant body, the JSON serialization of accountEnabled = false,
whatever the parameters, context and response are. -/
theorem C3_patch_constant_body (p : Params) (errs : List String) (b : String)
    (hd : Headers) (r : HttpResponse) (req : HttpRequest)
    (h : Effect.httpRequest req ∈ (invoke p errs b hd r).2) :
    req.method = "PATCH" ∧ req.body = "\x7b\"accountEnabled\":false\x7d" := by
  simp only [invoke] at h
  split at h
  · split at h <;> simp at h
  · split at h
    · simp [disableUserAccount, List.mem_append] at h
      first
        | exact ⟨rfl, rfl⟩
        | (subst h; exact ⟨rfl, rfl⟩)
    · split at h <;>
        · simp [disableUserAccount, List.mem_append] at h
          first
            | exact ⟨rfl, rfl⟩
            | (subst h; exact ⟨rfl, rfl⟩)

theorem C3_patch_constant_body_witness :
    { method := "PATCH",
      url := "https://graph.microsoft.com" ++ "/v1.0/users/" ++
        encodeURIComponent "user@contoso.com",
      headers := ([] : Headers), body := disableBody : HttpRequest }.method = "PATCH" ∧
    { method := "PATCH",
      url := "https://graph.microsoft.com" ++ "/v1.0/users/" ++
        encodeURIComponent "user@contoso.com",
      headers := ([] : Headers), body := disableBody : HttpRequest }.body =
      "\x7b\"accountEnabled\":false\x7d" :=
  C3_patch_constant_body { userPrincipalName := some "user@contoso.com", address := none }
    [] "https://graph.microsoft.com" [] sampleResponse204 _ (by decide)


/-- C4: with a valid userPrincipalName and a 204 response, invoke returns
exactly the success object with that userPrincipalName and
accountEnabled = false, and neither reads nor parses a response body. -/
theorem C4_status_204_success (s : String) (hs : s ≠ "") (a : Option String)
    (errs : List String) (b : String) (hd : Headers) (r : HttpResponse)
    (h204 : r.status = 204) :
    (invoke { userPrincipalName := some s, address := a } errs b hd r).1 =
      InvokeOutcome.success
        { status := "success", userPrincipalName := s, accountEnabled := false } ∧
    Effect.readBodyText ∉
      (invoke { userPrincipalName := some s, address := a } errs b hd r).2 ∧
    Effect.parseBodyJson ∉
      (invoke { userPrincipalName := some s, address := a } errs b hd r).2 := by
  have hfal : jsFalsy (some s) = false := by
    simp only [jsFalsy, beq_eq_false_iff_ne, ne_eq]; exact hs
  have hok : responseOk r = true := by
    simp only [responseOk, h204]; decide
  simp only [invoke, hfal, Bool.false_eq_true, if_false, Option.getD_some, hok,
    Bool.not_true, h204, bne_self_eq_false, List.mem_append, List.mem_cons,
    List.not_mem_nil]
  refine ⟨by trivial, ?_, ?_⟩ <;> (split <;> simp)

theorem C4_status_204_success_witness :
    (invoke { userPrincipalName := some "user@contoso.com", address := none } []
        "https://graph.microsoft.com" [] sampleResponse204).1 =
      InvokeOutcome.success
        { status := "success", userPrincipalName := "user@contoso.com",
          accountEnabled := false } ∧
    Effect.readBodyText ∉
      (invoke { userPrincipalName := some "user@contoso.com", address := none } []
        "https://graph.microsoft.com" [] sampleResponse204).2 ∧
    Effect.parseBodyJson ∉
      (invoke { userPrincipalName := some "user@contoso.com", address := none } []
        "https://graph.microsoft.com" [] sampleResponse204).2 :=
  C4_status_204_success "user@contoso.com" (by decide) none []
    "https://graph.microsoft.com" [] sampleResponse204 rfl

/-- C5: with a valid userPrincipalName and a 2xx response other than 204,
invoke parses the JSON body and returns a success whose accountEnabled is
the body field when present and false when absent. -/
theorem C5_2xx_body_accountEnabled (s : String) (hs : s ≠ "") (a : Option String)
    (errs : List String) (b : String) (hd : Headers) (r : HttpResponse)
    (hlo : 200 ≤ r.status) (hhi : r.status ≤ 299) (hne : r.status ≠ 204) :
    (invoke { userPrincipalName := some s, address := a } errs b hd r).1 =
      InvokeOutcome.success
        { status := "success", userPrincipalName := s,
          accountEnabled := r.bodyAccountEnabled.getD false } ∧
    Effect.parseBodyJson ∈
      (invoke { userPrincipalName := some s, address := a } errs b hd r).2 := by
  have hfal : jsFalsy (some s) = false := by
    simp only [jsFalsy, beq_eq_false_iff_ne, ne_eq]; exact hs
  have hok : responseOk r = true := by
    simp only [responseOk, Bool.and_eq_true, decide_eq_true_eq]
    exact ⟨hlo, hhi⟩
  have hbne : (r.status != 204) = true := by
    simp only [bne_iff_ne, ne_eq]; exact hne
  simp only [invoke, hfal, Bool.false_eq_true, if_false, Option.getD_some, hok,
    Bool.not_true, hbne, if_true, List.mem_append, List.mem_cons, List.not_mem_nil]
  simp

theorem C5_2xx_body_accountEnabled_witness :
    (invoke { userPrincipalName := some "user@contoso.com", address := none } []
        "https://graph.microsoft.com" [] sampleResponse200).1 =
      InvokeOutcome.success
        { status := "success", userPrincipalName := "user@contoso.com",
          accountEnabled := sampleResponse200.bodyAccountEnabled.getD false } ∧
    Effect.parseBodyJson ∈
      (invoke { userPrincipalName := some "user@contoso.com", address := none } []
        "https://graph.microsoft.com" [] sampleResponse200).2 :=
  C5_2xx_body_accountEnabled "user@contoso.com" (by decide) none []
    "https://graph.microsoft.com" [] sampleResponse200 (by decide) (by decide) (by decide)

/-- C6: with a valid userPrincipalName and a non-2xx response, invoke reads
the body as text and fails with an error message that contains the numeric
status code, the status text and the body text; it never returns success. -/
theorem C6_non2xx_api_error (s : String) (hs : s ≠ "") (a : Option String)
    (errs : List String) (b : String) (hd : Headers) (r : HttpResponse)
    (hnok : ¬(200 ≤ r.status ∧ r.status ≤ 299)) :
    (invoke { userPrincipalName := some s, address := a } errs b hd r).1 =
      InvokeOutcome.apiError
        ("Failed to disable user: " ++ toString r.status ++ " " ++
          r.statusText ++ ". Details: " ++ r.bodyText) ∧
    strContains
      ("Failed to disable user: " ++ toString r.status ++ " " ++
        r.statusText ++ ". Details: " ++ r.bodyText) (toString r.status) ∧
    strContains
      ("Failed to disable user: " ++ toString r.status ++ " " ++
        r.statusText ++ ". Details: " ++ r.bodyText) r.statusText ∧
    strContains
      ("Failed to disable user: " ++ toString r.status ++ " " ++
        r.statusText ++ ". Details: " ++ r.bodyText) r.bodyText ∧
    Effect.readBodyText ∈
      (invoke { userPrincipalName := some s, address := a } errs b hd r).2 ∧
    ∀ res, (invoke { userPrincipalName := some s, address := a } errs b hd r).1 ≠
      InvokeOutcome.success res := by
  have hfal : jsFalsy (some s) = false := by
    simp only [jsFalsy, beq_eq_false_iff_ne, ne_eq]; exact hs
  have hok : responseOk r = false := by
    simp only [responseOk, Bool.and_eq_false_iff, decide_eq_false_iff_not]
    omega
  simp only [invoke, hfal, Bool.false_eq_true, if_false, Option.getD_some, hok,
    Bool.not_false, if_true, List.mem_append, List.mem_cons, List.not_mem_nil]
  refine ⟨by trivial, ?_, ?_, ?_, by simp, by simp⟩
  · exact ⟨"Failed to disable user: ",
      " " ++ r.statusText ++ ". Details: " ++ r.bodyText, by
        simp only [String.append_assoc]⟩
  · exact ⟨"Failed to disable user: " ++ toString r.status ++ " ",
      ". Details: " ++ r.bodyText, by simp only [String.append_assoc]⟩
  · exact ⟨"Failed to disable user: " ++ toString r.status ++ " " ++
      r.statusText ++ ". Details: ", "", by
        simp only [String.append_assoc, String.append_empty]⟩

theorem C6_non2xx_api_error_witness :
    (invoke { userPrincipalName := some "user@contoso.com", address := none } []
        "https://graph.microsoft.com" [] sampleResponse403).1 =
      InvokeOutcome.apiError
        ("Failed to disable user: " ++ toString sampleResponse403.status ++ " " ++
          sampleResponse403.statusText ++ ". Details: " ++ sampleResponse403.bodyText) ∧
    strContains
      ("Failed to disable user: " ++ toString sampleResponse403.status ++ " " ++
        sampleResponse403.statusText ++ ". Details: " ++ sampleResponse403.bodyText)
      (toString sampleResponse403.status) ∧
    strContains
      ("Failed to disable user: " ++ toString sampleResponse403.status ++ " " ++
        sampleResponse403.statusText ++ ". Details: " ++ sampleResponse403.bodyText)
      sampleResponse403.statusText ∧
    strContains
      ("Failed to disable user: " ++ toString sampleResponse403.status ++ " " ++
        sampleResponse403.statusText ++ ". Details: " ++ sampleResponse403.bodyText)
      sampleResponse403.bodyText ∧
    Effect.readBodyText ∈
      (invoke { userPrincipalName := some "user@contoso.com", address := none } []
        "https://graph.microsoft.com" [] sampleResponse403).2 ∧
    ∀ res, (invoke { userPrincipalName := some "user@contoso.com", address := none } []
        "https://graph.microsoft.com" [] sampleResponse403).1 ≠
      InvokeOutcome.success res :=
  C6_non2xx_api_error "user@contoso.com" (by decide) none []
    "https://graph.microsoft.com" [] sampleResponse403 (by decide)

/-- C7: the error handler performs no classification: it rethrows the
received error value unchanged and never returns a retry request. -/
theorem C7_error_rethrows_unchanged (p : ErrorParams) :
    error p = ErrorOutcome.rethrow p.error ∧
    error p ≠ ErrorOutcome.retryRequested :=
  ⟨rfl, by simp [error]⟩


/-- C8 (counterexample): with a present-but-empty userPrincipalName, halt
reports "unknown", not the empty string the params carry, because the
JavaScript check `params.userPrincipalName || "unknown"` treats "" as
absent. -/
theorem C8_counterexample :
    (halt { userPrincipalName := some "", reason := "timeout" }).1 =
      { status := "halted", userPrincipalName := "unknown", reason := "timeout" } ∧
    (halt { userPrincipalName := some "", reason := "timeout" }).1.userPrincipalName ≠ "" := by
  decide

/-- C8 (amended): halt performs no I/O and returns exactly status "halted",
the given reason, and the params' userPrincipalName when a non-empty
(truthy) one is present, otherwise "unknown". -/
theorem C8_halt_reporting (p : HaltParams) :
    (halt p).2 = [] ∧
    (halt p).1 =
      { status := "halted",
        userPrincipalName := jsOrElse p.userPrincipalName "unknown",
        reason := p.reason } ∧
    (∀ s, p.userPrincipalName = some s → s ≠ "" →
      (halt p).1.userPrincipalName = s) ∧
    (jsFalsy p.userPrincipalName = true → (halt p).1.userPrincipalName = "unknown") := by
  refine ⟨rfl, rfl, ?_, ?_⟩
  · intro s hsome hne
    simp [halt, jsOrElse, hsome, hne]
  · intro hfal
    cases hupn : p.userPrincipalName with
    | none => simp [halt, jsOrElse, hupn]
    | some s =>
        rw [hupn] at hfal
        simp only [jsFalsy, beq_iff_eq] at hfal
        simp [halt, jsOrElse, hupn, hfal]

theorem C8_halt_reporting_witness :
    (halt { userPrincipalName := some "user@contoso.com",
            reason := "timeout" }).1.userPrincipalName = "user@contoso.com" :=
  (C8_halt_reporting ⟨some "user@contoso.com", "timeout"⟩).2.2.1
    "user@contoso.com" rfl (by decide)

/-- C9: template-resolution errors only add a warning at the head of the
trace; the outcome and the network effects of invoke are identical to an
invocation without resolution errors, so resolution errors alone never make
invoke fail. -/
theorem C9_template_errors_warn_only (p : Params) (errs : List String)
    (b : String) (hd : Headers) (r : HttpResponse) :
    (invoke p errs b hd r).1 = (invoke p [] b hd r).1 ∧
    (invoke p errs b hd r).2.filter (fun e => isNetworkEffect e) =
      (invoke p [] b hd r).2.filter (fun e => isNetworkEffect e) ∧
    (errs ≠ [] →
      (invoke p errs b hd r).2 =
        Effect.warnTemplateErrors :: (invoke p [] b hd r).2) := by
  rw [invoke_template_errors_shape p errs b hd r]
  refine ⟨rfl, ?_, ?_⟩
  · rw [List.filter_append]
    split <;> simp [isNetworkEffect]
  · intro hne
    have hlen : errs.length > 0 := List.length_pos.mpr hne
    simp [hlen]

theorem C9_template_errors_warn_only_witness :
    (invoke { userPrincipalName := some "user@contoso.com", address := none }
        ["resolution failed"] "https://graph.microsoft.com" [] sampleResponse204).2 =
      Effect.warnTemplateErrors ::
        (invoke { userPrincipalName := some "user@contoso.com", address := none } []
          "https://graph.microsoft.com" [] sampleResponse204).2 :=
  (C9_template_errors_warn_only ⟨some "user@contoso.com", none⟩
      ["resolution failed"] "https://graph.microsoft.com" []
      sampleResponse204).2.2 (by decide)

/-- C10: with a present-but-empty userPrincipalName, halt reports "unknown"
rather than the empty string: the presence check is a falsiness check. -/
theorem C10_halt_empty_upn_unknown (p : HaltParams)
    (h : p.userPrincipalName = some "") :
    (halt p).1.userPrincipalName = "unknown" := by
  simp [halt, jsOrElse, h]

theorem C10_halt_empty_upn_unknown_witness :
    (halt { userPrincipalName := some "", reason := "shutdown" }).1.userPrincipalName =
      "unknown" :=
  C10_halt_empty_upn_unknown ⟨some "", "shutdown"⟩ rfl


end AADDisableUser
